import Mathlib

/-!
Shallow embedding of the coverage-driven validation engine's response cache
(record/replay) and related callers, translated from the repository sources:

* cover_agent/record_replay_manager.py (class RecordReplayManager)
* cover_agent/ai_caller_replay.py      (class AICallerReplay)
* cover_agent/AICaller.py              (AICaller.call_model, message building)
* UnitTestValidator.validate_test      (not under the analyzed sources; modelled
  from the spec, see the doc comment of validateTest)

Modelling conventions:

* Python exceptions are modelled by Except PyErr; a catch-all try/except that
  returns None is modelled by returning none on every failing branch.
* The SHA-256 hex digest is kept abstract as a parameter hash : String → String;
  claims that depend on collision-freedom take injectivity as a hypothesis.
* The filesystem is a read-only map fs : String → Option String (file path to
  byte content, bytes modelled as String); a missing file read raises
  FileNotFoundError.
* The on-disk YAML response store is a map Disk from paths to parsed store
  files. A store file is either invalid YAML (yaml.safe_load raises), a YAML
  document that is not a mapping, or a mapping from prompt-hash keys to
  entries whose fields may individually be absent (Option), which models a
  KeyError on access. yaml.safe_dump/safe_load round-tripping is assumed
  faithful, so writes store the structured mapping directly. Path.resolve()
  is modelled as the identity on the constructed path string.
* Python str truthiness on Optional[str] (None and "" are falsy) is modelled
  by optStrTruthy.
* A prompt dict reaches the cache only through str(prompt); the cache
  functions therefore take the rendered prompt text as a String.
-/

/-- Python exceptions that the modelled code can raise. -/
inductive PyErr where
  | fileNotFound : String → PyErr
  | keyError : String → PyErr
deriving DecidableEq, Repr

/-- One value of the YAML mapping stored in a response file. Fields are
Option because a hand-edited or malformed entry may lack a key, which makes
the Python dict access raise KeyError. record_response always writes all
five fields. -/
structure CachedEntry where
  prompt : Option String
  response : Option String
  prompt_tokens : Option Int
  completion_tokens : Option Int
  files_hash : Option String
deriving DecidableEq, Repr

/-- The parsed content of one on-disk response file. -/
inductive StoreFile where
  | invalidYaml : StoreFile
  | nonDict : StoreFile
  | dict : List (String × CachedEntry) → StoreFile
deriving DecidableEq, Repr

/-- The backing store: response-file path to parsed content. -/
def Disk : Type := String → Option StoreFile

/-- The mutable state of a RecordReplayManager instance: constructor arguments
base_dir and record_mode, plus the per-instance files-hash cache, which starts
as None. -/
structure RRM where
  base_dir : String
  record_mode : Bool
  files_hash : Option String
deriving DecidableEq, Repr

/-- Python truthiness of an Optional[str]: None and the empty string are
falsy. -/
def optStrTruthy : Option String → Bool
  | none => false
  | some s => s != ""

/-- First-match association-list lookup, the model of a Python dict read. -/
def lookupAssoc {α : Type} : List (String × α) → String → Option α
  | [], _ => none
  | (k, v) :: rest, key => if k = key then some v else lookupAssoc rest key

/-- Python dict assignment d[key] = v: replace the first binding of key in
place, else append the new binding at the end. -/
def setAssoc {α : Type} : List (String × α) → String → α → List (String × α)
  | [], key, v => [(key, v)]
  | (k, w) :: rest, key, v =>
      if k = key then (key, v) :: rest else (k, w) :: setAssoc rest key v

/-- Number of bindings of a key in an association list. -/
def countKey {α : Type} (es : List (String × α)) (key : String) : Nat :=
  (es.filter (fun kv => kv.1 == key)).length

/-- open(path, "rb").read(): the content, or FileNotFoundError. -/
def readFile (fs : String → Option String) (path : String) : Except PyErr String :=
  match fs path with
  | some c => .ok c
  | none => .error (.fileNotFound path)

/-- RecordReplayManager._calculate_files_hash: return the cached hash when
self.files_hash is truthy; otherwise hash the source and test file contents,
hash the concatenation of the two hex digests, cache and return it. A missing
file makes open() raise FileNotFoundError. -/
def calculateFilesHash (hash : String → String) (fs : String → Option String)
    (m : RRM) (source_file test_file : String) : Except PyErr (String × RRM) :=
  if optStrTruthy m.files_hash then
    .ok (m.files_hash.getD "", m)
  else
    match fs source_file with
    | none => .error (.fileNotFound source_file)
    | some src =>
      match fs test_file with
      | none => .error (.fileNotFound test_file)
      | some tst =>
        let h := hash (hash src ++ hash tst)
        .ok (h, { m with files_hash := some h })

/-- pathlib Path(p).parts on a POSIX path: the root marker when the path is
absolute, followed by the non-empty components other than a bare dot. -/
def pyPathParts (p : String) : List String :=
  let comps := (p.splitOn "/").filter (fun s => s != "" && s != ".")
  if p.startsWith "/" then "/" :: comps else comps

/-- The test_name computation of _get_response_file_path: os.getenv
with default value, then for the default fall back to the second-to-last
path component of the source file when it has at least two components. -/
def computeTestName (envTestName : Option String) (source_file : String) : String :=
  let t := envTestName.getD "default"
  if t = "default" then
    let parts := pyPathParts source_file
    if parts.length ≥ 2 then parts.getD (parts.length - 2) t else t
  else t

/-- RecordReplayManager._get_response_file_path: compute the files hash
(possibly from the per-instance cache), then build
base_dir / (test_name ++ "_responses_" ++ files_hash ++ ".yml"). The mkdir
side effect has no bearing on the store content and .resolve() is modelled
as the identity. -/
def getResponseFilePath (hash : String → String) (fs : String → Option String)
    (envTestName : Option String) (m : RRM) (source_file test_file : String) :
    Except PyErr (String × RRM) :=
  match calculateFilesHash hash fs m source_file test_file with
  | .error e => .error e
  | .ok (fh, m') =>
    .ok (m'.base_dir ++ "/" ++ computeTestName envTestName source_file
          ++ "_responses_" ++ fh ++ ".yml", m')

/-- RecordReplayManager.has_response_file: raise FileNotFoundError when the
source or test path is falsy, else report whether the computed response file
exists on disk. -/
def hasResponseFile (hash : String → String) (fs : String → Option String)
    (envTestName : Option String) (disk : Disk) (m : RRM)
    (source_file test_file : String) : Except PyErr (Bool × RRM) :=
  if source_file = "" ∨ test_file = "" then
    .error (.fileNotFound
      "Source file and test file paths must be set to check response file existence")
  else
    match getResponseFilePath hash fs envTestName m source_file test_file with
    | .error e => .error e
    | .ok (p, m') => .ok ((disk p).isSome, m')

/-- The body of the hit branch of load_recorded_response: read the three
fields of the entry; a missing field raises KeyError, which the enclosing
catch-all except turns into None. -/
def loadEntryFields (e : CachedEntry) : Option (String × Int × Int) :=
  match e.response, e.prompt_tokens, e.completion_tokens with
  | some r, some pt, some ct => some (r, pt, ct)
  | _, _, _ => none

/-- RecordReplayManager.load_recorded_response: None immediately in record
mode; otherwise compute the response-file path (exceptions from reading the
source/test files propagate), then a missing file, invalid YAML, a non-dict
document, a missing prompt-hash key, or an entry with missing fields all
yield None through the try/except; a well-formed hit returns
(response, prompt_tokens, completion_tokens). -/
def loadRecordedResponse (hash : String → String) (fs : String → Option String)
    (envTestName : Option String) (disk : Disk) (m : RRM)
    (source_file test_file promptText : String) :
    Except PyErr (Option (String × Int × Int) × RRM) :=
  if m.record_mode then
    .ok (none, m)
  else
    match getResponseFilePath hash fs envTestName m source_file test_file with
    | .error e => .error e
    | .ok (p, m') =>
      match disk p with
      | none => .ok (none, m')
      | some .invalidYaml => .ok (none, m')
      | some .nonDict => .ok (none, m')
      | some (.dict es) =>
        match lookupAssoc es (hash promptText) with
        | none => .ok (none, m')
        | some e => .ok (loadEntryFields e, m')

/-- The cached_data initialization of record_response: reuse the existing
mapping when the file exists and parses as a dict, else start fresh (missing
file, YAMLError, or a non-dict document). -/
def storedEntries : Option StoreFile → List (String × CachedEntry)
  | some (.dict es) => es
  | _ => []

/-- RecordReplayManager.record_response: a no-op in replay mode; in record
mode compute the response-file path, load any existing mapping, overwrite the
binding of the prompt hash with the new entry (whose files_hash field comes
from a second _calculate_files_hash call, served by the instance cache), and
write the whole mapping back. -/
def recordResponse (hash : String → String) (fs : String → Option String)
    (envTestName : Option String) (disk : Disk) (m : RRM)
    (source_file test_file promptText response : String)
    (prompt_tokens completion_tokens : Int) : Except PyErr (Disk × RRM) :=
  if !m.record_mode then
    .ok (disk, m)
  else
    match getResponseFilePath hash fs envTestName m source_file test_file with
    | .error e => .error e
    | .ok (p, m') =>
      let cached := storedEntries (disk p)
      let ph := hash promptText
      match calculateFilesHash hash fs m' source_file test_file with
      | .error e => .error e
      | .ok (fh, m'') =>
        let entry : CachedEntry :=
          { prompt := some promptText, response := some response,
            prompt_tokens := some prompt_tokens,
            completion_tokens := some completion_tokens,
            files_hash := some fh }
        .ok (fun q => if q = p then some (.dict (setAssoc cached ph entry))
                      else disk q,
             m'')

/-- The response-file path as a pure function of the file contents, for a
manager instance whose files-hash cache is unset: some path when both files
are readable, none otherwise. -/
def responsePathPure (hash : String → String) (fs : String → Option String)
    (envTestName : Option String) (base_dir source_file test_file : String) :
    Option String :=
  match fs source_file, fs test_file with
  | some a, some b =>
      some (base_dir ++ "/" ++ computeTestName envTestName source_file
            ++ "_responses_" ++ hash (hash a ++ hash b) ++ ".yml")
  | _, _ => none

/-- The replay-only caller AICallerReplay: its constructor stores the source
path, the test path and a RecordReplayManager (replay mode by default). -/
structure AICallerReplay where
  source_file : String
  test_file : String
  manager : RRM
deriving DecidableEq, Repr

/-- AICallerReplay.call_model: look up the recorded response for the prompt;
on a miss (None, the only falsy value a load can produce, since a non-empty
tuple is truthy) raise KeyError with the no-recorded-response message; on a
hit return the stored (content, prompt_tokens, completion_tokens). The
streaming/printing of the content is console I/O only and is not modelled.
There is no live-model code path in this class. -/
def callModelReplay (hash : String → String) (fs : String → Option String)
    (envTestName : Option String) (disk : Disk) (c : AICallerReplay)
    (promptText : String) : Except PyErr ((String × Int × Int) × RRM) :=
  match loadRecordedResponse hash fs envTestName disk c.manager
      c.source_file c.test_file promptText with
  | .error e => .error e
  | .ok (none, _) =>
    .error (.keyError
      ("No recorded response found for prompt hash in replay mode. Source file: "
        ++ c.source_file ++ ", Test file: " ++ c.test_file ++ "."))
  | .ok (some t, m') => .ok (t, m')

/-- A chat message as built by AICaller.call_model. -/
structure Message where
  role : String
  content : String
deriving DecidableEq, Repr

/-- A Python dict of prompt parts, as far as call_model reads it. -/
def PromptDict : Type := List (String × String)

/-- AICaller.call_model up to the litellm.completion boundary: the KeyError
guard on the system and user keys, then the messages list that would be sent.
The system+user concatenation for user-message-only models is stripped
(Python str.strip, modelled by String.trim). Everything after message
construction is the external model call and is outside this model. -/
def callModelMessages (model : String) (userMessageOnlyModels : List String)
    (prompt : PromptDict) : Except PyErr (List Message) :=
  match lookupAssoc prompt "system", lookupAssoc prompt "user" with
  | some sys, some usr =>
    if sys = "" then
      .ok [{ role := "user", content := usr }]
    else if model ∈ userMessageOnlyModels then
      .ok [{ role := "user", content := (sys ++ "\n" ++ usr).trim }]
    else
      .ok [{ role := "system", content := sys },
           { role := "user", content := usr }]
  | _, _ =>
    .error (.keyError "The prompt dictionary must contain system and user keys")

/-- Terminal outcome of one validation attempt. -/
inductive Outcome where
  | accepted
  | rolledBack
deriving DecidableEq, Repr

/-- The terminal record of one validation attempt: status, human-readable
reason, the reported exit code, and the post-run coverage when produced. -/
structure AttemptResult where
  status : Outcome
  reason : String
  exit_code : Int
  report : Option Rat
deriving DecidableEq, Repr

/-- One execution of the test command: whether the wall-clock deadline fired,
and the exit code. -/
structure RunOutcome where
  timedOut : Bool
  exit_code : Int
deriving DecidableEq, Repr

/-- Substring containment, used to state that a reason string contains a
required phrase. -/
def strContains (s sub : String) : Prop :=
  ∃ pre post : String, s = pre ++ sub ++ post

/-- Modelled from the spec: UnitTestValidator.validate_test is not among the
analyzed sources (only tests/test_UnitTestValidator.py is), so the decision
logic of the Validation State Machine is taken from the specification.
Transitions modelled: a deadline expiry gives TIMED_OUT and a rollback; a
non-zero exit code gives FAILED and a rollback; a candidate that reached
PASSED is re-executed the configured number of additional times and any
failing repetition demotes the outcome to a rollback for flakiness; an
unreadable or missing post-run coverage report gives a rollback; otherwise
the attempt is accepted exactly when the post-run aggregate coverage strictly
exceeds the baseline, and rolled back with the coverage-did-not-increase
reason when it is equal or lower, the exit code reported being that of the
test run. -/
def validateTest (baseline : Rat) (run : RunOutcome) (reruns : List RunOutcome)
    (newReport : Option Rat) : AttemptResult :=
  if run.timedOut then
    { status := .rolledBack, reason := "Test run timed out",
      exit_code := run.exit_code, report := none }
  else if run.exit_code != 0 then
    { status := .rolledBack, reason := "Test failed",
      exit_code := run.exit_code, report := none }
  else if reruns.any (fun r => r.timedOut || r.exit_code != 0) then
    { status := .rolledBack, reason := "Test is flaky",
      exit_code := run.exit_code, report := newReport }
  else
    match newReport with
    | none =>
      { status := .rolledBack, reason := "Coverage report missing or unreadable",
        exit_code := run.exit_code, report := none }
    | some c =>
      if baseline < c then
        { status := .accepted, reason := "Test passed and coverage increased",
          exit_code := run.exit_code, report := some c }
      else
        { status := .rolledBack,
          reason := "Coverage did not increase. Test passed but coverage is unchanged or lower",
          exit_code := run.exit_code, report := some c }

/-! Concrete fixtures used to instantiate the theorems below at evaluable
inputs. The abstract hash function is instantiated with the identity, which
is injective; the filesystem maps s.py and t.py to one-character contents. -/

/-- Filesystem fixture: s.py holds A, t.py holds B. -/
def fsW : String → Option String := fun f =>
  if f = "s.py" then some "A" else if f = "t.py" then some "B" else none

/-- Filesystem fixture after an edit of the test file: t.py now holds C. -/
def fsW2 : String → Option String := fun f =>
  if f = "s.py" then some "A" else if f = "t.py" then some "C" else none

/-- An empty backing store. -/
def diskEmpty : Disk := fun _ => none

/-- A fresh record-mode manager over base directory base. -/
def rrmRecW : RRM := { base_dir := "base", record_mode := true, files_hash := none }

/-- A fresh replay-mode manager over base directory base. -/
def rrmRepW : RRM := { base_dir := "base", record_mode := false, files_hash := none }

/-- The record-mode manager after its files hash has been computed over fsW
with the identity hash: id (id A ++ id B) = AB. -/
def rrm1W : RRM := { base_dir := "base", record_mode := true, files_hash := some "AB" }

/-- The replay-mode manager after its files hash has been computed over fsW. -/
def rrm2W : RRM := { base_dir := "base", record_mode := false, files_hash := some "AB" }

/-- TEST_NAME environment fixture. -/
def envW : Option String := some "t"

/-- The response-file path produced by the fixtures: files hash AB, test
name t, base directory base. -/
def pW : String := "base/t_responses_AB.yml"

/-- A store-file entry predating the fixture recordings, stored under a key
other than the fixture prompt hash. -/
def entryOldW : CachedEntry :=
  { prompt := none, response := some "old", prompt_tokens := some 7,
    completion_tokens := some 8, files_hash := none }

/-- A backing store whose fixture response file already holds entryOldW. -/
def diskPreW : Disk := fun q =>
  if q = pW then some (.dict [("k0", entryOldW)]) else none

/-- A backing store whose fixture response file is invalid YAML. -/
def diskBadW : Disk := fun q =>
  if q = pW then some .invalidYaml else none

/-- A fully populated entry for the fixture prompt P under the identity
hash (prompt hash P). -/
def entryHitW : CachedEntry :=
  { prompt := some "P", response := some "R", prompt_tokens := some 1,
    completion_tokens := some 2, files_hash := some "AB" }

/-- A backing store whose fixture response file holds entryHitW under the
fixture prompt hash. -/
def diskHitW : Disk := fun q =>
  if q = pW then some (.dict [("P", entryHitW)]) else none

/-- A replay caller over the fixture files and the fresh replay manager. -/
def acW : AICallerReplay :=
  { source_file := "s.py", test_file := "t.py", manager := rrmRepW }

/-! Helper lemmas about the association-list dictionary model and the
files-hash computation. -/

theorem lookupAssoc_setAssoc_self {α : Type} (es : List (String × α)) (k : String) (v : α) :
    lookupAssoc (setAssoc es k v) k = some v := by
  induction es with
  | nil => simp [setAssoc, lookupAssoc]
  | cons kv rest ih =>
    obtain ⟨a, w⟩ := kv
    by_cases h : a = k
    · simp [setAssoc, lookupAssoc, h]
    · simp [setAssoc, lookupAssoc, h, ih]

theorem lookupAssoc_setAssoc_ne {α : Type} (es : List (String × α)) (k k' : String) (v : α)
    (h : k' ≠ k) : lookupAssoc (setAssoc es k v) k' = lookupAssoc es k' := by
  have hk : k ≠ k' := Ne.symm h
  induction es with
  | nil => simp [setAssoc, lookupAssoc, hk]
  | cons kv rest ih =>
    obtain ⟨a, w⟩ := kv
    by_cases ha : a = k
    · subst ha
      simp [setAssoc, lookupAssoc, hk]
    · simp only [setAssoc, if_neg ha, lookupAssoc, ih]

theorem countKey_eq_zero {α : Type} (es : List (String × α)) (k : String)
    (h : k ∉ es.map Prod.fst) : countKey es k = 0 := by
  induction es with
  | nil => rfl
  | cons kv rest ih =>
    simp only [List.map_cons, List.mem_cons, not_or] at h
    have hne : (kv.1 == k) = false := by
      simp only [beq_eq_false_iff_ne, ne_eq]
      exact fun e => h.1 e.symm
    unfold countKey at ih ⊢
    rw [List.filter_cons, hne]
    exact ih h.2

theorem countKey_setAssoc_self {α : Type} (es : List (String × α)) (k : String) (v : α)
    (hnd : (es.map Prod.fst).Nodup) : countKey (setAssoc es k v) k = 1 := by
  induction es with
  | nil => simp [setAssoc, countKey]
  | cons kv rest ih =>
    obtain ⟨a, w⟩ := kv
    simp only [List.map_cons, List.nodup_cons] at hnd
    by_cases h : a = k
    · subst h
      have h0 : countKey rest a = 0 := countKey_eq_zero rest a hnd.1
      unfold countKey at h0 ⊢
      simp [setAssoc, List.filter_cons, h0]
    · have hb : (a == k) = false := by
        simp only [beq_eq_false_iff_ne, ne_eq]
        exact h
      unfold countKey at ih ⊢
      simp only [setAssoc, if_neg h]
      rw [List.filter_cons, hb]
      exact ih hnd.2

theorem calculateFilesHash_inv (hash : String → String)
    (fs : String → Option String) (m : RRM) (sf tf h : String) (m₁ : RRM)
    (hc : calculateFilesHash hash fs m sf tf = .ok (h, m₁)) :
    (optStrTruthy m.files_hash = true ∧ m₁ = m ∧ m.files_hash = some h) ∨
    (optStrTruthy m.files_hash = false ∧ ∃ a b, fs sf = some a ∧ fs tf = some b ∧
       h = hash (hash a ++ hash b) ∧ m₁ = { m with files_hash := some h }) := by
  unfold calculateFilesHash at hc
  by_cases hm : optStrTruthy m.files_hash
  · rw [if_pos hm] at hc
    simp only [Except.ok.injEq, Prod.mk.injEq] at hc
    refine Or.inl ⟨hm, hc.2.symm, ?_⟩
    cases hfh : m.files_hash with
    | none => rw [hfh] at hm; simp [optStrTruthy] at hm
    | some s => rw [hfh] at hc; simpa using hc.1
  · rw [if_neg hm] at hc
    cases hsf : fs sf with
    | none => rw [hsf] at hc; cases hc
    | some a =>
      rw [hsf] at hc
      cases htf : fs tf with
      | none => rw [htf] at hc; cases hc
      | some b =>
        rw [htf] at hc
        simp only [Except.ok.injEq, Prod.mk.injEq] at hc
        refine Or.inr ⟨by simpa using hm, a, b, rfl, rfl, hc.1.symm, ?_⟩
        rw [← hc.2, hc.1]

theorem calculateFilesHash_cached (hash : String → String)
    (fs : String → Option String) (m : RRM) (sf tf h : String)
    (hh : h ≠ "") (hm : m.files_hash = some h) :
    calculateFilesHash hash fs m sf tf = .ok (h, m) := by
  have ht : optStrTruthy m.files_hash = true := by simp [optStrTruthy, hm, hh]
  unfold calculateFilesHash
  rw [if_pos ht, hm]
  rfl

theorem calculateFilesHash_stable (hash : String → String)
    (fs : String → Option String) (m : RRM) (sf tf h : String) (m₁ : RRM)
    (hc : calculateFilesHash hash fs m sf tf = .ok (h, m₁)) :
    calculateFilesHash hash fs m₁ sf tf = .ok (h, m₁) := by
  rcases calculateFilesHash_inv hash fs m sf tf h m₁ hc with
    ⟨hm, he, hfh⟩ | ⟨hm, a, b, hsf, htf, hh, he⟩
  · subst he
    exact hc
  · by_cases hh0 : h = ""
    · subst he
      subst hh0
      simp [calculateFilesHash, optStrTruthy, hsf, htf, ← hh]
    · subst he
      exact calculateFilesHash_cached hash fs _ sf tf h hh0 rfl

theorem getResponseFilePath_inv (hash : String → String)
    (fs : String → Option String) (envTestName : Option String) (m : RRM)
    (sf tf p : String) (m' : RRM)
    (hp : getResponseFilePath hash fs envTestName m sf tf = .ok (p, m')) :
    ∃ fh, calculateFilesHash hash fs m sf tf = .ok (fh, m') ∧
      p = m'.base_dir ++ "/" ++ computeTestName envTestName sf
            ++ "_responses_" ++ fh ++ ".yml" := by
  unfold getResponseFilePath at hp
  cases hcf : calculateFilesHash hash fs m sf tf with
  | error e => rw [hcf] at hp; cases hp
  | ok v =>
    obtain ⟨fh, m''⟩ := v
    rw [hcf] at hp
    simp only [Except.ok.injEq, Prod.mk.injEq] at hp
    obtain ⟨h1, h2⟩ := hp
    subst h2
    exact ⟨fh, rfl, h1.symm⟩

theorem getResponseFilePath_fresh (hash : String → String)
    (fs : String → Option String) (envTestName : Option String)
    (bd : String) (rm : Bool) (sf tf a b : String)
    (hs : fs sf = some a) (ht : fs tf = some b) :
    getResponseFilePath hash fs envTestName (RRM.mk bd rm none) sf tf =
      .ok (bd ++ "/" ++ computeTestName envTestName sf ++ "_responses_"
            ++ hash (hash a ++ hash b) ++ ".yml",
           RRM.mk bd rm (some (hash (hash a ++ hash b)))) := by
  simp [getResponseFilePath, calculateFilesHash, optStrTruthy, hs, ht]



/-! The claims. -/

/-- Claim C5: for every RecordReplayManager constructed with
record_mode=True, load_recorded_response returns None for every source file,
test file and prompt, regardless of what responses are stored on disk, and
leaves the manager state untouched. -/
theorem c5_load_always_misses_in_record_mode
    (hash : String → String) (fs : String → Option String)
    (envTestName : Option String) (disk : Disk) (m : RRM)
    (source_file test_file promptText : String) (hm : m.record_mode = true) :
    loadRecordedResponse hash fs envTestName disk m source_file test_file promptText
      = .ok (none, m) := by
  simp [loadRecordedResponse, hm]

/-- Witness for C5: a record-mode lookup misses even though the store holds
a response recorded for the very same files and prompt. -/
theorem c5_witness :
    rrmRecW.record_mode = true ∧
    loadRecordedResponse id fsW envW diskHitW rrmRecW "s.py" "t.py" "P"
      = .ok (none, rrmRecW) :=
  ⟨rfl, c5_load_always_misses_in_record_mode id fsW envW diskHitW rrmRecW
    "s.py" "t.py" "P" rfl⟩

/-- Claim C6: for every RecordReplayManager constructed with
record_mode=False, record_response leaves the backing store and the manager
state (in particular the files-hash cache) completely unchanged for every
input. -/
theorem c6_record_noop_in_replay_mode
    (hash : String → String) (fs : String → Option String)
    (envTestName : Option String) (disk : Disk) (m : RRM)
    (source_file test_file promptText response : String)
    (prompt_tokens completion_tokens : Int) (hm : m.record_mode = false) :
    recordResponse hash fs envTestName disk m source_file test_file promptText
      response prompt_tokens completion_tokens = .ok (disk, m) := by
  simp [recordResponse, hm]

/-- Witness for C6: a replay-mode record call over a non-empty store returns
the store and manager unchanged. -/
theorem c6_witness :
    rrmRepW.record_mode = false ∧
    recordResponse id fsW envW diskPreW rrmRepW "s.py" "t.py" "P" "R" 1 2
      = .ok (diskPreW, rrmRepW) :=
  ⟨rfl, c6_record_noop_in_replay_mode id fsW envW diskPreW rrmRepW
    "s.py" "t.py" "P" "R" 1 2 rfl⟩

/-- Claim C10: has_response_file raises FileNotFoundError whenever the source
or test path is the empty (falsy) string, uniformly in the filesystem and
store (so without touching either); when both are non-empty it returns True
exactly when the computed response file exists on disk. -/
theorem c10_has_response_file_spec
    (hash : String → String) (envTestName : Option String) (m : RRM)
    (source_file test_file : String) :
    ((source_file = "" ∨ test_file = "") →
      ∀ fs disk, hasResponseFile hash fs envTestName disk m source_file test_file
        = .error (.fileNotFound
          "Source file and test file paths must be set to check response file existence")) ∧
    (source_file ≠ "" → test_file ≠ "" →
      ∀ fs disk p m',
        getResponseFilePath hash fs envTestName m source_file test_file = .ok (p, m') →
        hasResponseFile hash fs envTestName disk m source_file test_file
          = .ok ((disk p).isSome, m')) := by
  constructor
  · intro h fs disk
    simp [hasResponseFile, h]
  · intro h1 h2 fs disk p m' hp
    simp [hasResponseFile, h1, h2, hp]

/-- Witness for C10: an empty source path raises; with both paths set and a
store holding the computed response file, the call reports True. -/
theorem c10_witness :
    hasResponseFile id fsW envW diskPreW rrmRecW "" "t.py"
      = .error (.fileNotFound
          "Source file and test file paths must be set to check response file existence") ∧
    hasResponseFile id fsW envW diskPreW rrmRecW "s.py" "t.py"
      = .ok (true, rrm1W) := by
  constructor
  · exact (c10_has_response_file_spec id envW rrmRecW "" "t.py").1 (Or.inl rfl)
      fsW diskPreW
  · exact (c10_has_response_file_spec id envW rrmRecW "s.py" "t.py").2
      (by decide) (by decide) fsW diskPreW pW rrm1W rfl

/-- Claim C8: AICaller.call_model raises KeyError when the prompt dictionary
lacks the system key or the user key, before any messages are constructed or
any model call is made (the model of call_model stops at the litellm
boundary, and the error branch precedes message construction). -/
theorem c8_call_model_requires_system_and_user
    (model : String) (userMessageOnlyModels : List String) (prompt : PromptDict)
    (h : lookupAssoc prompt "system" = none ∨ lookupAssoc prompt "user" = none) :
    callModelMessages model userMessageOnlyModels prompt
      = .error (.keyError "The prompt dictionary must contain system and user keys") := by
  unfold callModelMessages
  cases hs : lookupAssoc prompt "system" with
  | none => cases lookupAssoc prompt "user" <;> rfl
  | some sys =>
    cases hu : lookupAssoc prompt "user" with
    | none => rfl
    | some usr =>
      rcases h with h | h
      · rw [hs] at h; cases h
      · rw [hu] at h; cases h

/-- Witness for C8: a prompt with only a user key is rejected. -/
theorem c8_witness :
    lookupAssoc [("user", "hi")] "system" = none ∧
    callModelMessages "gpt-3" [] [("user", "hi")]
      = .error (.keyError "The prompt dictionary must contain system and user keys") :=
  ⟨rfl, c8_call_model_requires_system_and_user "gpt-3" [] [("user", "hi")]
    (Or.inl rfl)⟩

/-- Claim C2: whenever the replay lookup completes with a miss (None),
AICallerReplay.call_model raises the no-recorded-response KeyError; the
function has no live-model code path, so the error propagates to the
caller. -/
theorem c2_replay_fail_fast
    (hash : String → String) (fs : String → Option String)
    (envTestName : Option String) (disk : Disk) (c : AICallerReplay)
    (promptText : String) (m' : RRM)
    (hmiss : loadRecordedResponse hash fs envTestName disk c.manager
        c.source_file c.test_file promptText = .ok (none, m')) :
    callModelReplay hash fs envTestName disk c promptText
      = .error (.keyError
          ("No recorded response found for prompt hash in replay mode. Source file: "
            ++ c.source_file ++ ", Test file: " ++ c.test_file ++ ".")) := by
  unfold callModelReplay
  rw [hmiss]

/-- Witness for C2: over an empty store, the fixture replay caller raises
the no-recorded-response KeyError. -/
theorem c2_witness :
    loadRecordedResponse id fsW envW diskEmpty acW.manager acW.source_file
        acW.test_file "P" = .ok (none, rrm2W) ∧
    callModelReplay id fsW envW diskEmpty acW "P"
      = .error (.keyError
          ("No recorded response found for prompt hash in replay mode. Source file: "
            ++ acW.source_file ++ ", Test file: " ++ acW.test_file ++ ".")) :=
  ⟨rfl, c2_replay_fail_fast id fsW envW diskEmpty acW "P" rrm2W rfl⟩

/-- Claim C3: a candidate whose test run exits 0 (no timeout, no failing
repetition) but whose post-run aggregate coverage is less than or equal to
the baseline ends rolled back, with a reason containing the phrase Coverage
did not increase and reported exit code 0. -/
theorem c3_no_coverage_increase_rolled_back
    (baseline c : Rat) (run : RunOutcome) (reruns : List RunOutcome)
    (ht : run.timedOut = false) (he : run.exit_code = 0)
    (hr : reruns.any (fun r => r.timedOut || r.exit_code != 0) = false)
    (hc : c ≤ baseline) :
    (validateTest baseline run reruns (some c)).status = .rolledBack ∧
    strContains (validateTest baseline run reruns (some c)).reason
      "Coverage did not increase" ∧
    (validateTest baseline run reruns (some c)).exit_code = 0 := by
  have hlt : ¬ baseline < c := not_lt.mpr hc
  simp only [validateTest, ht, he, hr, hlt]
  refine ⟨by simp, ?_, by simp⟩
  exact ⟨"", ". Test passed but coverage is unchanged or lower", by simp⟩

/-- Witness for C3: baseline coverage 1, candidate passes with exit code 0
and unchanged coverage 1: rolled back with the required reason and exit
code. -/
theorem c3_witness :
    (validateTest 1 (RunOutcome.mk false 0) [] (some 1)).status = .rolledBack ∧
    strContains (validateTest 1 (RunOutcome.mk false 0) [] (some 1)).reason
      "Coverage did not increase" ∧
    (validateTest 1 (RunOutcome.mk false 0) [] (some 1)).exit_code = 0 :=
  c3_no_coverage_increase_rolled_back 1 1 (RunOutcome.mk false 0) [] rfl rfl rfl
    (le_refl 1)

/-- Claim C9: in replay mode, once the response-file path is computable (the
source and test files are readable), load_recorded_response never propagates
an exception arising from the backing store: it completes on every store
content, and returns None when the response file is absent, contains invalid
YAML, is not a mapping, or holds an entry missing the response,
prompt_tokens or completion_tokens field. -/
theorem c9_load_total_over_malformed_stores
    (hash : String → String) (fs : String → Option String)
    (envTestName : Option String) (disk : Disk) (m : RRM)
    (source_file test_file promptText p : String) (m' : RRM)
    (hm : m.record_mode = false)
    (hp : getResponseFilePath hash fs envTestName m source_file test_file = .ok (p, m')) :
    (∃ r, loadRecordedResponse hash fs envTestName disk m source_file test_file promptText
        = .ok (r, m')) ∧
    ((disk p = none ∨ disk p = some .invalidYaml ∨ disk p = some .nonDict ∨
        (∃ es e, disk p = some (.dict es) ∧
          lookupAssoc es (hash promptText) = some e ∧
          (e.response = none ∨ e.prompt_tokens = none ∨ e.completion_tokens = none))) →
      loadRecordedResponse hash fs envTestName disk m source_file test_file promptText
        = .ok (none, m')) := by
  have hbase : loadRecordedResponse hash fs envTestName disk m source_file test_file promptText
      = match disk p with
        | none => .ok (none, m')
        | some .invalidYaml => .ok (none, m')
        | some .nonDict => .ok (none, m')
        | some (.dict es) =>
          match lookupAssoc es (hash promptText) with
          | none => .ok (none, m')
          | some e => .ok (loadEntryFields e, m') := by
    unfold loadRecordedResponse
    rw [hm, hp]
    rfl
  constructor
  · rw [hbase]
    cases hd : disk p with
    | none => exact ⟨none, rfl⟩
    | some s =>
      cases s with
      | invalidYaml => exact ⟨none, rfl⟩
      | nonDict => exact ⟨none, rfl⟩
      | dict es =>
        cases hl : lookupAssoc es (hash promptText) with
        | none => exact ⟨none, by simp [hl]⟩
        | some e => exact ⟨loadEntryFields e, by simp [hl]⟩
  · intro hcase
    rw [hbase]
    rcases hcase with hd | hd | hd | ⟨es, e, hd, hl, hf⟩
    · rw [hd]
    · rw [hd]
    · rw [hd]
    · have hnone : loadEntryFields e = none := by
        unfold loadEntryFields
        rcases hf with hf | hf | hf <;> rw [hf] <;>
          cases e.response <;> cases e.prompt_tokens <;> cases e.completion_tokens <;> rfl
      rw [hd]
      simp only [hl, hnone]

/-- Witness for C9: a replay lookup over a store whose response file is
invalid YAML completes and returns None. -/
theorem c9_witness :
    (∃ r, loadRecordedResponse id fsW envW diskBadW rrmRepW "s.py" "t.py" "P"
        = .ok (r, rrm2W)) ∧
    ((diskBadW pW = none ∨ diskBadW pW = some .invalidYaml ∨ diskBadW pW = some .nonDict ∨
        (∃ es e, diskBadW pW = some (.dict es) ∧
          lookupAssoc es (id "P") = some e ∧
          (e.response = none ∨ e.prompt_tokens = none ∨ e.completion_tokens = none))) →
      loadRecordedResponse id fsW envW diskBadW rrmRepW "s.py" "t.py" "P"
        = .ok (none, rrm2W)) :=
  c9_load_total_over_malformed_stores id fsW envW diskBadW rrmRepW
    "s.py" "t.py" "P" pW rrm2W rfl rfl

/-- Claim C7: after a record_response call in record mode, the written store
file maps the prompt hash to exactly one entry holding the recorded prompt,
response and token counts (overwriting any previous binding of that hash),
and, whenever the existing store file parsed as a YAML mapping (whose keys
are unique by the YAML data model, the Nodup hypothesis), every entry under
any other key is preserved unchanged. -/
theorem c7_record_store_invariant
    (hash : String → String) (fs : String → Option String)
    (envTestName : Option String) (disk : Disk) (m : RRM)
    (source_file test_file promptText response : String)
    (prompt_tokens completion_tokens : Int) (p : String) (m' : RRM)
    (hm : m.record_mode = true)
    (hp : getResponseFilePath hash fs envTestName m source_file test_file = .ok (p, m'))
    (hnd : ∀ es, disk p = some (.dict es) → (es.map Prod.fst).Nodup) :
    ∃ d' fh,
      recordResponse hash fs envTestName disk m source_file test_file promptText
        response prompt_tokens completion_tokens = .ok (d', m') ∧
      ∃ es', d' p = some (.dict es') ∧
        countKey es' (hash promptText) = 1 ∧
        lookupAssoc es' (hash promptText) = some
          { prompt := some promptText, response := some response,
            prompt_tokens := some prompt_tokens,
            completion_tokens := some completion_tokens,
            files_hash := some fh } ∧
        (∀ es k, disk p = some (.dict es) → k ≠ hash promptText →
          lookupAssoc es' k = lookupAssoc es k) := by
  obtain ⟨fh, hcf, hpe⟩ :=
    getResponseFilePath_inv hash fs envTestName m source_file test_file p m' hp
  have hcf2 := calculateFilesHash_stable hash fs m source_file test_file fh m' hcf
  have hnodup : ((storedEntries (disk p)).map Prod.fst).Nodup := by
    cases hd : disk p with
    | none => simp [storedEntries]
    | some s =>
      cases s with
      | invalidYaml => simp [storedEntries]
      | nonDict => simp [storedEntries]
      | dict es => simpa [storedEntries] using hnd es hd
  have hrec : recordResponse hash fs envTestName disk m source_file test_file promptText
      response prompt_tokens completion_tokens
      = .ok (fun q => if q = p then
               some (.dict (setAssoc (storedEntries (disk p)) (hash promptText)
                 { prompt := some promptText, response := some response,
                   prompt_tokens := some prompt_tokens,
                   completion_tokens := some completion_tokens,
                   files_hash := some fh }))
             else disk q, m') := by
    unfold recordResponse
    rw [hm, hp]
    simp only [Bool.not_true, Bool.false_eq_true, if_false]
    rw [hcf2]
  refine ⟨_, fh, hrec, setAssoc (storedEntries (disk p)) (hash promptText) _,
    by simp, ?_, lookupAssoc_setAssoc_self _ _ _, ?_⟩
  · exact countKey_setAssoc_self _ _ _ hnodup
  · intro es k hd hk
    rw [hd]
    have : storedEntries (disk p) = es := by rw [hd]; rfl
    rw [← this]
    exact lookupAssoc_setAssoc_ne _ _ _ _ hk

/-- Witness for C7: recording over a store that already holds an entry under
another key yields a store with exactly one binding of the fixture prompt
hash and the old entry intact. -/
theorem c7_witness :
    ∃ d' fh,
      recordResponse id fsW envW diskPreW rrmRecW "s.py" "t.py" "P" "R" 1 2
        = .ok (d', rrm1W) ∧
      ∃ es', d' pW = some (.dict es') ∧
        countKey es' (id "P") = 1 ∧
        lookupAssoc es' (id "P") = some
          { prompt := some "P", response := some "R", prompt_tokens := some 1,
            completion_tokens := some 2, files_hash := some fh } ∧
        (∀ es k, diskPreW pW = some (.dict es) → k ≠ id "P" →
          lookupAssoc es' k = lookupAssoc es k) :=
  c7_record_store_invariant id fsW envW diskPreW rrmRecW "s.py" "t.py" "P" "R"
    1 2 pW rrm1W rfl rfl
    (by
      intro es h
      have h' : some (StoreFile.dict [("k0", entryOldW)]) = some (StoreFile.dict es) := h
      cases h'
      decide)

/-- Claim C1: record/replay round-trip. With readable source and test files,
recording a response in record mode and then looking it up in replay mode
over the same base directory and unchanged file contents returns exactly the
stored (response, prompt_tokens, completion_tokens); a lookup with any
prompt whose rendered text differs from the recorded one (and which was
never recorded — the store started empty) returns a miss, the hash being
collision-free (injective). -/
theorem c1_record_replay_roundtrip
    (hash : String → String) (hinj : Function.Injective hash)
    (fs : String → Option String) (envTestName : Option String)
    (bd source_file test_file a b : String)
    (hs : fs source_file = some a) (ht : fs test_file = some b)
    (disk0 : Disk) (promptText response : String)
    (prompt_tokens completion_tokens : Int) (p : String)
    (hp : responsePathPure hash fs envTestName bd source_file test_file = some p)
    (h0 : disk0 p = none) :
    ∃ disk1 m1,
      recordResponse hash fs envTestName disk0 (RRM.mk bd true none)
        source_file test_file promptText response prompt_tokens completion_tokens
        = .ok (disk1, m1) ∧
      (∃ m2, loadRecordedResponse hash fs envTestName disk1 (RRM.mk bd false none)
          source_file test_file promptText
          = .ok (some (response, prompt_tokens, completion_tokens), m2)) ∧
      (∀ q, q ≠ promptText →
        ∃ m3, loadRecordedResponse hash fs envTestName disk1 (RRM.mk bd false none)
            source_file test_file q = .ok (none, m3)) := by
  have hpe : p = bd ++ "/" ++ computeTestName envTestName source_file
      ++ "_responses_" ++ hash (hash a ++ hash b) ++ ".yml" := by
    unfold responsePathPure at hp
    rw [hs, ht] at hp
    exact (Option.some.inj hp).symm
  have hgrec := getResponseFilePath_fresh hash fs envTestName bd true
    source_file test_file a b hs ht
  have hgrep := getResponseFilePath_fresh hash fs envTestName bd false
    source_file test_file a b hs ht
  rw [← hpe] at hgrec hgrep
  have hcf : calculateFilesHash hash fs (RRM.mk bd true none) source_file test_file
      = .ok (hash (hash a ++ hash b),
             RRM.mk bd true (some (hash (hash a ++ hash b)))) := by
    simp [calculateFilesHash, optStrTruthy, hs, ht]
  have hcf2 := calculateFilesHash_stable hash fs (RRM.mk bd true none)
    source_file test_file _ _ hcf
  refine ⟨fun q => if q = p then
      some (.dict [(hash promptText,
        { prompt := some promptText, response := some response,
          prompt_tokens := some prompt_tokens,
          completion_tokens := some completion_tokens,
          files_hash := some (hash (hash a ++ hash b)) })])
      else disk0 q,
    RRM.mk bd true (some (hash (hash a ++ hash b))), ?_,
    ⟨RRM.mk bd false (some (hash (hash a ++ hash b))), ?_⟩,
    fun q hq => ⟨RRM.mk bd false (some (hash (hash a ++ hash b))), ?_⟩⟩
  · unfold recordResponse
    rw [hgrec]
    simp [hcf2, h0, storedEntries, setAssoc]
  · unfold loadRecordedResponse
    rw [hgrep]
    simp [lookupAssoc, loadEntryFields]
  · have hne : hash promptText ≠ hash q := fun e => hq (hinj e).symm
    unfold loadRecordedResponse
    rw [hgrep]
    simp [lookupAssoc, hne]

/-- Witness for C1: recording prompt P with response R over an empty store
and replaying it returns (R, 1, 2); any other prompt misses. -/
theorem c1_witness :
    ∃ disk1 m1,
      recordResponse id fsW envW diskEmpty (RRM.mk "base" true none)
        "s.py" "t.py" "P" "R" 1 2 = .ok (disk1, m1) ∧
      (∃ m2, loadRecordedResponse id fsW envW disk1 (RRM.mk "base" false none)
          "s.py" "t.py" "P" = .ok (some ("R", 1, 2), m2)) ∧
      (∀ q, q ≠ "P" →
        ∃ m3, loadRecordedResponse id fsW envW disk1 (RRM.mk "base" false none)
            "s.py" "t.py" q = .ok (none, m3)) :=
  c1_record_replay_roundtrip id Function.injective_id fsW envW "base"
    "s.py" "t.py" "A" "B" rfl rfl diskEmpty "P" "R" 1 2 pW rfl rfl

/-- Left cancellation of string concatenation, used to separate files hashes
of different file contents. -/
theorem stringAppendLeftCancel (a b c : String) (h : a ++ b = a ++ c) : b = c := by
  have hd := congrArg String.data h
  simp only [String.data_append] at hd
  exact String.ext (List.append_cancel_left hd)

/-- Counterexample to claim C4 as stated: on the same RecordReplayManager
instance, changing the test file's content between two calls does not change
the computed files hash — the second call returns the cached hash of the
first call and addresses the same store file. Concretely, with the identity
hash, after a first call computes AB over t.py holding B, a second call on
the same instance with t.py holding C still returns AB and the same path. -/
theorem c4_counterexample :
    fsW "t.py" ≠ fsW2 "t.py" ∧
    calculateFilesHash id fsW rrmRecW "s.py" "t.py" = .ok ("AB", rrm1W) ∧
    calculateFilesHash id fsW2 rrm1W "s.py" "t.py" = .ok ("AB", rrm1W) ∧
    getResponseFilePath id fsW envW rrmRecW "s.py" "t.py" = .ok (pW, rrm1W) ∧
    getResponseFilePath id fsW2 envW rrm1W "s.py" "t.py" = .ok (pW, rrm1W) :=
  ⟨by decide, rfl, rfl, rfl, rfl⟩

/-- Claim C4 (amended): the files hash is computed from the current source
and test file contents only when the instance's hash cache is unset; after a
first successful computation the (non-empty) hash is cached, so a later call
on the same instance returns the same hash and addresses the same store file
even if the test file's content changed; two computations that both start
with an unset cache (e.g. on fresh instances) over different test-file
contents compute different files hashes, the hash being collision-free. -/
theorem c4_files_hash_cached_per_instance :
    (∀ (hash : String → String) (fs fs' : String → Option String)
       (envTestName : Option String) (m m₁ : RRM) (sf tf h : String),
       h ≠ "" →
       calculateFilesHash hash fs m sf tf = .ok (h, m₁) →
       calculateFilesHash hash fs' m₁ sf tf = .ok (h, m₁) ∧
       getResponseFilePath hash fs' envTestName m₁ sf tf
         = .ok (m₁.base_dir ++ "/" ++ computeTestName envTestName sf
             ++ "_responses_" ++ h ++ ".yml", m₁)) ∧
    (∀ (hash : String → String), Function.Injective hash →
       ∀ (fs fs' : String → Option String) (bd bd' : String) (rm rm' : Bool)
         (sf tf a b b' : String),
       fs sf = some a → fs tf = some b → fs' sf = some a → fs' tf = some b' →
       b ≠ b' →
       ∀ h₁ m₁ h₂ m₂,
         calculateFilesHash hash fs (RRM.mk bd rm none) sf tf = .ok (h₁, m₁) →
         calculateFilesHash hash fs' (RRM.mk bd' rm' none) sf tf = .ok (h₂, m₂) →
         h₁ ≠ h₂) := by
  constructor
  · intro hash fs fs' envTestName m m₁ sf tf h hh hc
    have hset : m₁.files_hash = some h := by
      rcases calculateFilesHash_inv hash fs m sf tf h m₁ hc with
        ⟨_, he, hfh⟩ | ⟨_, _, _, _, _, _, he⟩
      · rw [he]; exact hfh
      · rw [he]
    have hc' := calculateFilesHash_cached hash fs' m₁ sf tf h hh hset
    refine ⟨hc', ?_⟩
    unfold getResponseFilePath
    rw [hc']
  · intro hash hinj fs fs' bd bd' rm rm' sf tf a b b' hs ht hs' ht' hb
      h₁ m₁ h₂ m₂ hc₁ hc₂
    have e₁ : calculateFilesHash hash fs (RRM.mk bd rm none) sf tf
        = .ok (hash (hash a ++ hash b),
               RRM.mk bd rm (some (hash (hash a ++ hash b)))) := by
      simp [calculateFilesHash, optStrTruthy, hs, ht]
    have e₂ : calculateFilesHash hash fs' (RRM.mk bd' rm' none) sf tf
        = .ok (hash (hash a ++ hash b'),
               RRM.mk bd' rm' (some (hash (hash a ++ hash b')))) := by
      simp [calculateFilesHash, optStrTruthy, hs', ht']
    rw [e₁] at hc₁
    rw [e₂] at hc₂
    injection hc₁ with hv₁
    injection hc₂ with hv₂
    injection hv₁ with g₁ g₁'
    injection hv₂ with g₂ g₂'
    rw [← g₁, ← g₂]
    intro he
    have h1 := hinj he
    have h2 := stringAppendLeftCancel _ _ _ h1
    exact hb (hinj h2)

/-- Witness for the amended C4: the cached-instance call over the edited
filesystem returns the old hash AB and the old path; two fresh-cache
computations over test contents B and C give different hashes. -/
theorem c4_witness :
    (calculateFilesHash id fsW2 rrm1W "s.py" "t.py" = .ok ("AB", rrm1W) ∧
     getResponseFilePath id fsW2 envW rrm1W "s.py" "t.py"
       = .ok (rrm1W.base_dir ++ "/" ++ computeTestName envW "s.py"
           ++ "_responses_" ++ "AB" ++ ".yml", rrm1W)) ∧
    ("AB" : String) ≠ "AC" :=
  ⟨c4_files_hash_cached_per_instance.1 id fsW fsW2 envW rrmRecW rrm1W
      "s.py" "t.py" "AB" (by decide) rfl,
   c4_files_hash_cached_per_instance.2 id Function.injective_id fsW fsW2
      "base" "base" true false "s.py" "t.py" "A" "B" "C" rfl rfl rfl rfl
      (by decide) "AB" rrm1W "AC" (RRM.mk "base" false (some "AC")) rfl rfl⟩
